import Mathlib

/-!
Shallow embedding of `src/index.js` (the `TomlTest` launcher class) and proofs
about its acquisition pipeline: filename resolution, proxy-agent selection,
manual redirect following, download/decompress filesystem effects, and the
error-handling behaviour of `ensureBinaryFileExists`.

Machine-level conventions of the embedding:
  * JS strings are Lean `String`s; environment variables are `Option String`
    (absent = `none`), and JS truthiness (`""` is falsy) is modelled explicitly.
  * The HTTP transport is modelled as a list of `TransportEvent`s: the k-th
    request issued by `createFetch` receives the k-th event.
  * The filesystem is a record `FS` holding the `dist` directory flag and the
    two files the program touches (binary and compressed), each with content
    (a byte list) and a numeric mode.
  * `process.exit(1)` and the printed messages are reified in `RunOutcome`.
-/

namespace TomlTest

/-! ## Path/URL resolver (src/index.js lines 34-58) -/

/-- `get platform()`: `process.platform === 'win32'` is renamed `windows`,
everything else passes through. -/
def platform (procPlatform : String) : String :=
  if procPlatform = "win32" then "windows" else procPlatform

/-- `get arch()`: `process.arch === 'x64'` is renamed `amd64`,
everything else passes through. -/
def arch (procArch : String) : String :=
  if procArch = "x64" then "amd64" else procArch

/-- `get binaryFilename()`: `toml-test-v{version}-{platform}-{arch}`, with
`.ext` appended when the (normalized) platform is `windows`. -/
def binaryFilename (version procPlatform procArch : String) : String :=
  let name := "toml-test-v" ++ version ++ "-" ++ platform procPlatform ++ "-" ++ arch procArch
  if platform procPlatform = "windows" then name ++ ".ext" else name

/-- `get compressedFilename()`: the binary filename with `.gz` appended. -/
def compressedFilename (version procPlatform procArch : String) : String :=
  binaryFilename version procPlatform procArch ++ ".gz"

/-! ## Proxy agent selection (src/index.js lines 158-212) -/

/-- The URL data `getAgent` consumes: a WHATWG `URL`, of which the code only
inspects `protocol` (which includes the trailing colon, e.g. `"https:"`).
`rest` abstracts everything after the scheme. -/
structure URLModel where
  protocol : String
  rest : String
deriving DecidableEq

/-- A constructed proxy agent: `new HttpProxyAgent(u)`, `new HttpsProxyAgent(u)`
or `new SocksProxyAgent(u)`, remembering the proxy address it was given. -/
inductive Agent where
  | httpA (proxyUrl : String)
  | httpsA (proxyUrl : String)
  | socksA (proxyUrl : String)
deriving DecidableEq

/-- The six environment variables the proxy selection reads. -/
structure Env where
  http_proxy : Option String
  HTTP_PROXY : Option String
  https_proxy : Option String
  HTTPS_PROXY : Option String
  all_proxy : Option String
  ALL_PROXY : Option String
deriving DecidableEq

/-- JS truthiness of an env value: absent and empty strings are falsy. -/
def truthyEnv (v : Option String) : Option String :=
  match v with
  | none => none
  | some s => if s = "" then none else some s

/-- `a || b` followed by the `if (!proxyUrl) return null` guard: the first
truthy value of the two variables, if any. -/
def jsOrEnv (a b : Option String) : Option String :=
  match truthyEnv a with
  | some s => some s
  | none => truthyEnv b

/-- The regex test `/^http/i.test(s)` (resp. `/^socks/i`): case-insensitive
match anchored at the start of the string. The pattern is given in lowercase;
the subject is lowercased character-wise (over the character list, so the
definition reduces in the kernel). -/
def matchesCI (pat s : String) : Bool :=
  pat.data.isPrefixOf (s.data.map Char.toLower)

/-- `createHttpProxyAgent()` (lines 171-182): reads `http_proxy || HTTP_PROXY`;
`http...` value gives an `HttpProxyAgent`, `socks...` a `SocksProxyAgent`,
anything else (or no truthy value) gives `null`. -/
def createHttpProxyAgent (env : Env) : Option Agent :=
  match jsOrEnv env.http_proxy env.HTTP_PROXY with
  | none => none
  | some proxyUrl =>
    if matchesCI "http" proxyUrl then some (.httpA proxyUrl)
    else if matchesCI "socks" proxyUrl then some (.socksA proxyUrl)
    else none

/-- `createHttpsProxyAgent()` (lines 184-195): same shape over
`https_proxy || HTTPS_PROXY`, building an `HttpsProxyAgent` in the http case. -/
def createHttpsProxyAgent (env : Env) : Option Agent :=
  match jsOrEnv env.https_proxy env.HTTPS_PROXY with
  | none => none
  | some proxyUrl =>
    if matchesCI "http" proxyUrl then some (.httpsA proxyUrl)
    else if matchesCI "socks" proxyUrl then some (.socksA proxyUrl)
    else none

/-- `createAllProxyAgent(protocol)` (lines 197-212): reads
`all_proxy || ALL_PROXY`; an `http...` value builds an agent matching the
TARGET protocol (http or https, `null` otherwise), a `socks...` value builds a
`SocksProxyAgent` for any protocol. -/
def createAllProxyAgent (env : Env) (protocol : String) : Option Agent :=
  match jsOrEnv env.all_proxy env.ALL_PROXY with
  | none => none
  | some proxyUrl =>
    if matchesCI "http" proxyUrl then
      if protocol = "http:" then some (.httpA proxyUrl)
      else if protocol = "https:" then some (.httpsA proxyUrl)
      else none
    else if matchesCI "socks" proxyUrl then some (.socksA proxyUrl)
    else none

/-- `getAgent(url)` (lines 158-169): scheme-specific creator first (only for
`http:`/`https:` targets), then the all-proxy fallback when that produced
nothing. -/
def getAgent (env : Env) (url : URLModel) : Option Agent :=
  let agent : Option Agent :=
    if url.protocol = "http:" then createHttpProxyAgent env
    else if url.protocol = "https:" then createHttpsProxyAgent env
    else none
  match agent with
  | some a => some a
  | none => createAllProxyAgent env url.protocol

/-! ## Fetcher (src/index.js lines 131-141) -/

/-- A `Location` header value: either an absolute URL or a path to resolve
against the base, modelling `new URL(location, res.url)`. -/
inductive Location where
  | absolute (u : URLModel)
  | relative (path : String)
deriving DecidableEq

/-- `new URL(res.headers.get('location'), res.url)`. With `redirect: 'manual'`
node-fetch sets `res.url` to the URL that was requested, so the base of the
resolution is the current request URL. A missing header makes `headers.get`
return `null`, which the URL constructor stringifies to the relative path
`"null"`. -/
def resolveLocation (loc : Option Location) (base : URLModel) : URLModel :=
  match loc with
  | some (.absolute u) => u
  | some (.relative p) => { base with rest := p }
  | none => { base with rest := "null" }

/-- One event delivered by the HTTP transport to one `fetch` call: either the
promise rejects with a node-fetch `FetchError` (connection failure), or a
response arrives carrying a status, an optional `Location` header, the body
bytes the stream will deliver, and whether the body stream will error after
delivering them. -/
inductive TransportEvent where
  | netError
  | response (status : Nat) (location : Option Location) (body : List Nat) (bodyErr : Bool)
deriving DecidableEq

/-- A request as issued by `fetch(url.href, { agent: this.getAgent(url), ... })`:
the URL together with the agent selected for it. -/
structure Request where
  url : URLModel
  agent : Option Agent
deriving DecidableEq

/-- How one `createFetch` invocation ends. `statusError c` is the plain
`new Error('status: c')` thrown on a non-ok, non-redirect status — it is NOT a
node-fetch `FetchError`. `truncated` is a modelling artifact: the transport
script ran out of events (the real program would still be awaiting a
response). -/
inductive FetchResult where
  | fetchError
  | statusError (code : Nat)
  | success (status : Nat) (body : List Nat) (bodyErr : Bool)
  | truncated
deriving DecidableEq

/-- node-fetch `res.ok`: status in the 2xx success range. -/
def isOk (status : Nat) : Bool :=
  decide (200 ≤ status ∧ status < 300)

/-- `createFetch(url)` (lines 131-141): issue the request with the agent from
`getAgent(url)` and `redirect: 'manual'`; on 301/302 resolve the `Location`
header against the current URL and recurse; on a non-ok status throw a
status-carrying error; otherwise return the response. Returns the list of
requests issued (in order) together with the outcome. -/
def createFetch (env : Env) : URLModel → List TransportEvent → List Request × FetchResult
  | _, [] => ([], .truncated)
  | url, ev :: rest =>
    let req : Request := ⟨url, getAgent env url⟩
    match ev with
    | .netError => ([req], .fetchError)
    | .response st loc body bodyErr =>
      if st = 301 ∨ st = 302 then
        let next := createFetch env (resolveLocation loc url) rest
        (req :: next.1, next.2)
      else if isOk st then ([req], .success st body bodyErr)
      else ([req], .statusError st)

/-- One hop of a redirect chain: the status (301 or 302 in the theorems), the
`Location` header and the (ignored) body data of the redirect response. -/
structure RedirectHop where
  status : Nat
  location : Option Location
  body : List Nat
  bodyErr : Bool
deriving DecidableEq

/-- A transport script made of redirect responses followed by a final event. -/
def redirectChain (hops : List RedirectHop) (fin : TransportEvent) : List TransportEvent :=
  hops.map (fun h => .response h.status h.location h.body h.bodyErr) ++ [fin]

/-- The URLs `createFetch` is expected to visit along a redirect chain: the
initial URL, then each hop's `Location` resolved against the previous URL. -/
def urlTrail (u : URLModel) : List RedirectHop → List URLModel
  | [] => [u]
  | h :: t => u :: urlTrail (resolveLocation h.location u) t

/-! ## Filesystem model and the acquisition pipeline
    (src/index.js lines 86-129 and 143-156) -/

/-- A file on disk: its byte content and its numeric permission mode, exactly
as passed to `fs.chmod` (a plain number in the code). -/
structure File where
  content : List Nat
  mode : Nat
deriving DecidableEq

/-- The slice of the filesystem the program touches: the `dist` directory and
the two paths `binaryFilePath` and `compressedFilePath` inside it. -/
structure FS where
  distExists : Bool
  binaryFile : Option File
  compressedFile : Option File
deriving DecidableEq

/-- The classes of error that can reach the `catch` in
`ensureBinaryFileExists`. `fetchError` is a rejected `fetch` promise
(a node-fetch `FetchError`); `bodyError` is an `error` event on the response
body stream while piping (node-fetch raises these as `FetchError`s);
`statusError` is the plain `Error` thrown by `createFetch` on a bad status;
`readError` and `gzipError` come from the read and gunzip stages of
`decompress`; `truncatedModel` is the transport-script artifact. -/
inductive AcqError where
  | fetchError
  | statusError (code : Nat)
  | bodyError
  | readError
  | gzipError
  | truncatedModel
deriving DecidableEq

/-- The `e instanceof FetchError` test in the catch block. -/
def isFetchErrorInstance : AcqError → Bool
  | .fetchError => true
  | .bodyError => true
  | _ => false

/-- Mode of a file freshly created by `createWriteStream` (0o666, the Node
default before umask; the exact value is irrelevant to the claims). -/
def defaultFileMode : Nat := 438

/-- `ensureDistExists()` (lines 127-129): `mkdir` with the failure
(in particular EEXIST) swallowed — the directory exists afterwards. -/
def ensureDistExists (fs : FS) : FS :=
  { fs with distExists := true }

/-- `decompress()` (lines 143-156): open the compressed file for reading, pipe
through gunzip into a write stream at the binary path. The write stream is
created before any data flows, so the binary file exists (empty) even when
reading or gunzipping fails. `gunzip` is the zlib inflate function, modelled
as a parameter returning `none` on corrupt input. -/
def decompress (gunzip : List Nat → Option (List Nat)) (fs : FS) : FS × Option AcqError :=
  let fsW : FS := { fs with binaryFile := some ⟨[], defaultFileMode⟩ }
  match fs.compressedFile with
  | none => (fsW, some .readError)
  | some cf =>
    match gunzip cf.content with
    | some out => ({ fsW with binaryFile := some ⟨out, defaultFileMode⟩ }, none)
    | none => (fsW, some .gzipError)

/-- `download()` (lines 108-125): fetch (following redirects), then create the
dist directory, stream the body into `compressedFilePath`, decompress into
`binaryFilePath`, and finally `fs.chmod(binaryFilePath, 755)` — the literal
number 755, which as a JS number is DECIMAL 755 (= octal 1363), not octal
0o755. On a body-stream error the bytes delivered so far remain on disk as
the compressed file. Returns the final filesystem, the error if any, and the
requests issued. -/
def download (env : Env) (gunzip : List Nat → Option (List Nat)) (url : URLModel)
    (chain : List TransportEvent) (fs : FS) : FS × Option AcqError × List Request :=
  let fetched := createFetch env url chain
  match fetched.2 with
  | .fetchError => (fs, some .fetchError, fetched.1)
  | .statusError c => (fs, some (.statusError c), fetched.1)
  | .truncated => (fs, some .truncatedModel, fetched.1)
  | .success _st body bodyErr =>
    let fs1 := ensureDistExists fs
    let fs2 : FS := { fs1 with compressedFile := some ⟨body, defaultFileMode⟩ }
    if bodyErr then (fs2, some .bodyError, fetched.1)
    else
      let dec := decompress gunzip fs2
      match dec.2 with
      | some e => (dec.1, some e, fetched.1)
      | none =>
        ({ dec.1 with binaryFile := dec.1.binaryFile.map fun f => { f with mode := 755 } },
          none, fetched.1)

/-- How `ensureBinaryFileExists` ends: fall through to the dispatcher, or
`process.exit(1)` after printing either `HELP_MESSAGE` (the proxy/mirror
remediation hints, for `FetchError`s) or the raw error (`console.error`). -/
inductive RunOutcome where
  | proceeded
  | exitedWithHelp
  | exitedWithRawError (e : AcqError)
deriving DecidableEq

/-- The exit status the process takes in each outcome (`none` = no explicit
exit; control continues to the dispatcher). -/
def exitCode : RunOutcome → Option Nat
  | .proceeded => none
  | .exitedWithHelp => some 1
  | .exitedWithRawError _ => some 1

/-- `fs.unlink(p).catch(_ => {})`: best-effort deletion. `fails` injects a
failing unlink (permission error, etc.); the rejection is swallowed either
way, leaving the file in place only when the deletion itself failed. -/
def unlinkBestEffort (fails : Bool) (f : Option File) : Option File :=
  if fails then f else none

/-- `ensureBinaryFileExists()` (lines 86-106): return immediately when the
binary exists; otherwise download, and on any error best-effort-unlink both
the binary and the compressed file, print the help message iff the error is a
`FetchError` (raw error otherwise), and exit 1. `unlinkBinFails` and
`unlinkGzFails` inject failures of the two unlink calls. -/
def ensureBinaryFileExists (env : Env) (gunzip : List Nat → Option (List Nat))
    (url : URLModel) (chain : List TransportEvent)
    (unlinkBinFails unlinkGzFails : Bool) (fs : FS) : FS × RunOutcome × List Request :=
  if fs.binaryFile.isSome then (fs, .proceeded, [])
  else
    let d := download env gunzip url chain fs
    match d.2.1 with
    | none => (d.1, .proceeded, d.2.2)
    | some e =>
      let fs1 : FS := { d.1 with
        binaryFile := unlinkBestEffort unlinkBinFails d.1.binaryFile,
        compressedFile := unlinkBestEffort unlinkGzFails d.1.compressedFile }
      (fs1, if isFetchErrorInstance e then .exitedWithHelp else .exitedWithRawError e, d.2.2)

/-- The permission bits rwxr-xr-x as a mode number: octal 0o755 = decimal 493. -/
def rwxrxrxMode : Nat := 493

/-- Whether a mode number marks the file executable for owner, group and
others (the three execute bits, at octal digit positions 0, 1, 2). -/
def modeExecutableAll (m : Nat) : Bool :=
  decide (m / 64 % 2 = 1 ∧ m / 8 % 2 = 1 ∧ m % 2 = 1)

end TomlTest

namespace TomlTest

/-! ## Theorems on the resolver -/

/-- C8: `binaryFilename` is a pure deterministic function of
(version, platform, arch); `win32` normalizes to `windows`, `x64` normalizes
to `amd64`, all other platform/arch strings pass through unchanged, and the
`.ext` suffix is appended exactly when the platform is windows. -/
theorem binaryFilename_pure_normalized (v p a : String) :
    binaryFilename v p a =
      if p = "win32" ∨ p = "windows" then
        "toml-test-v" ++ v ++ "-" ++ "windows" ++ "-" ++
          (if a = "x64" then "amd64" else a) ++ ".ext"
      else
        "toml-test-v" ++ v ++ "-" ++ p ++ "-" ++ (if a = "x64" then "amd64" else a) := by
  unfold binaryFilename platform arch
  by_cases hp : p = "win32"
  · simp [hp]
  · by_cases hw : p = "windows" <;> simp [hp, hw]

/-- C3: proxy selection priority and agent-type invariants of `getAgent`:
(a) for an `http:` (resp. `https:`) target a scheme-specific agent, when one is
created, is used as-is — the catch-all is never consulted; (b) when selection
falls to the catch-all and its value begins with `http` (case-insensitively),
the constructed agent type matches the TARGET scheme (HTTP-style for `http:`
targets, HTTPS-style for `https:` targets); (c) when the catch-all value
begins with `socks` (case-insensitively), a SOCKS agent is built regardless of
the target scheme; (d) when no proxy variable holds a truthy value, no agent
is returned. -/
theorem getAgent_selection (env : Env) (u : String) :
    (∀ url a, url.protocol = "http:" → createHttpProxyAgent env = some a →
      getAgent env url = some a) ∧
    (∀ url a, url.protocol = "https:" → createHttpsProxyAgent env = some a →
      getAgent env url = some a) ∧
    (∀ url, url.protocol = "http:" → createHttpProxyAgent env = none →
      jsOrEnv env.all_proxy env.ALL_PROXY = some u → matchesCI "http" u = true →
      getAgent env url = some (.httpA u)) ∧
    (∀ url, url.protocol = "https:" → createHttpsProxyAgent env = none →
      jsOrEnv env.all_proxy env.ALL_PROXY = some u → matchesCI "http" u = true →
      getAgent env url = some (.httpsA u)) ∧
    (∀ url, (url.protocol = "http:" → createHttpProxyAgent env = none) →
      (url.protocol = "https:" → createHttpsProxyAgent env = none) →
      jsOrEnv env.all_proxy env.ALL_PROXY = some u →
      matchesCI "http" u = false → matchesCI "socks" u = true →
      getAgent env url = some (.socksA u)) ∧
    (∀ url, jsOrEnv env.http_proxy env.HTTP_PROXY = none →
      jsOrEnv env.https_proxy env.HTTPS_PROXY = none →
      jsOrEnv env.all_proxy env.ALL_PROXY = none →
      getAgent env url = none) := by
  refine ⟨?_, ?_, ?_, ?_, ?_, ?_⟩
  · intro url a hp hs
    simp [getAgent, hp, hs]
  · intro url a hp hs
    by_cases hh : url.protocol = "http:"
    · rw [hh] at hp; simp at hp
    · simp [getAgent, hh, hp, hs]
  · intro url hp hnone hall hhttp
    simp [getAgent, hp, hnone, createAllProxyAgent, hall, hhttp]
  · intro url hp hnone hall hhttp
    by_cases hh : url.protocol = "http:"
    · rw [hh] at hp; simp at hp
    · simp [getAgent, hh, hp, hnone, createAllProxyAgent, hall, hhttp]
  · intro url hp hps hall hhttp hsocks
    by_cases hh : url.protocol = "http:"
    · simp [getAgent, hh, hp hh, createAllProxyAgent, hall, hhttp, hsocks]
    · by_cases hh2 : url.protocol = "https:"
      · simp [getAgent, hh, hh2, hps hh2, createAllProxyAgent, hall, hhttp, hsocks]
      · simp [getAgent, hh, hh2, createAllProxyAgent, hall, hhttp, hsocks]
  · intro url hp hps hall
    have h1 : createHttpProxyAgent env = none := by
      simp [createHttpProxyAgent, hp]
    have h2 : createHttpsProxyAgent env = none := by
      simp [createHttpsProxyAgent, hps]
    have h3 : ∀ pr, createAllProxyAgent env pr = none := by
      intro pr; simp [createAllProxyAgent, hall]
    by_cases hh : url.protocol = "http:"
    · simp [getAgent, hh, h1, h3]
    · by_cases hh2 : url.protocol = "https:"
      · simp [getAgent, hh, hh2, h2, h3]
      · simp [getAgent, hh, hh2, h3]

/-- Witness for C3: with `HTTP_PROXY=http://p:1080` an `http:` target uses an
HTTP-style agent carrying that address even though `ALL_PROXY` is also set;
with only `ALL_PROXY=socks5://p:1080` set, both an `http:` and an `https:`
target use a SOCKS agent. -/
theorem getAgent_selection_witness :
    getAgent ⟨none, some "http://p:1080", none, none, none, some "socks5://p:1080"⟩
        ⟨"http:", "//h/x"⟩ = some (.httpA "http://p:1080") ∧
    getAgent ⟨none, none, none, none, none, some "socks5://p:1080"⟩
        ⟨"http:", "//h/x"⟩ = some (.socksA "socks5://p:1080") ∧
    getAgent ⟨none, none, none, none, none, some "socks5://p:1080"⟩
        ⟨"https:", "//h/x"⟩ = some (.socksA "socks5://p:1080") := by
  refine ⟨?_, ?_, ?_⟩
  · exact (getAgent_selection ⟨none, some "http://p:1080", none, none, none,
      some "socks5://p:1080"⟩ "").1 ⟨"http:", "//h/x"⟩ (.httpA "http://p:1080") rfl (by decide)
  · exact (getAgent_selection ⟨none, none, none, none, none,
      some "socks5://p:1080"⟩ "socks5://p:1080").2.2.2.2.1 ⟨"http:", "//h/x"⟩
      (fun _ => by decide) (fun h => by simp at h) (by decide) (by decide) (by decide)
  · exact (getAgent_selection ⟨none, none, none, none, none,
      some "socks5://p:1080"⟩ "socks5://p:1080").2.2.2.2.1 ⟨"https:", "//h/x"⟩
      (fun h => by simp at h) (fun _ => by decide) (by decide) (by decide) (by decide)

/-- C10: a scheme-specific proxy variable whose value begins with neither
`http` nor `socks` (case-insensitively) creates no scheme-specific agent, and
selection falls through to the all-proxy catch-all; a value beginning with
`socks` yields a SOCKS agent already from the scheme-specific step. -/
theorem schemeSpecific_fallthrough_and_socks (env : Env) (u : String) :
    (∀ url, url.protocol = "http:" →
      jsOrEnv env.http_proxy env.HTTP_PROXY = some u →
      matchesCI "http" u = false → matchesCI "socks" u = false →
      getAgent env url = createAllProxyAgent env "http:") ∧
    (∀ url, url.protocol = "https:" →
      jsOrEnv env.https_proxy env.HTTPS_PROXY = some u →
      matchesCI "http" u = false → matchesCI "socks" u = false →
      getAgent env url = createAllProxyAgent env "https:") ∧
    (∀ url, url.protocol = "http:" →
      jsOrEnv env.http_proxy env.HTTP_PROXY = some u →
      matchesCI "http" u = false → matchesCI "socks" u = true →
      getAgent env url = some (.socksA u)) ∧
    (∀ url, url.protocol = "https:" →
      jsOrEnv env.https_proxy env.HTTPS_PROXY = some u →
      matchesCI "http" u = false → matchesCI "socks" u = true →
      getAgent env url = some (.socksA u)) := by
  refine ⟨?_, ?_, ?_, ?_⟩
  · intro url hp henv hhttp hsocks
    have h1 : createHttpProxyAgent env = none := by
      simp [createHttpProxyAgent, henv, hhttp, hsocks]
    simp [getAgent, hp, h1]
  · intro url hp henv hhttp hsocks
    have h1 : createHttpsProxyAgent env = none := by
      simp [createHttpsProxyAgent, henv, hhttp, hsocks]
    by_cases hh : url.protocol = "http:"
    · rw [hh] at hp; simp at hp
    · simp [getAgent, hh, hp, h1]
  · intro url hp henv hhttp hsocks
    have h1 : createHttpProxyAgent env = some (.socksA u) := by
      simp [createHttpProxyAgent, henv, hhttp, hsocks]
    simp [getAgent, hp, h1]
  · intro url hp henv hhttp hsocks
    have h1 : createHttpsProxyAgent env = some (.socksA u) := by
      simp [createHttpsProxyAgent, henv, hhttp, hsocks]
    by_cases hh : url.protocol = "http:"
    · rw [hh] at hp; simp at hp
    · simp [getAgent, hh, hp, h1]

/-- Witness for C10: `https_proxy=ftp://p:21` (neither http nor socks) makes
the `https:` lookup fall through to `ALL_PROXY=http://q:3128`, which builds an
HTTPS-style agent; `http_proxy=socks4://p:1080` yields a SOCKS agent from the
scheme-specific step. -/
theorem schemeSpecific_fallthrough_witness :
    getAgent ⟨none, none, some "ftp://p:21", none, none, some "http://q:3128"⟩
        ⟨"https:", "//h/x"⟩ = some (.httpsA "http://q:3128") ∧
    getAgent ⟨some "socks4://p:1080", none, none, none, none, none⟩
        ⟨"http:", "//h/x"⟩ = some (.socksA "socks4://p:1080") := by
  constructor
  · have h := (schemeSpecific_fallthrough_and_socks
      ⟨none, none, some "ftp://p:21", none, none, some "http://q:3128"⟩
      "ftp://p:21").2.1 ⟨"https:", "//h/x"⟩ rfl (by decide) (by decide) (by decide)
    rw [h]; decide
  · exact (schemeSpecific_fallthrough_and_socks
      ⟨some "socks4://p:1080", none, none, none, none, none⟩
      "socks4://p:1080").2.2.1 ⟨"http:", "//h/x"⟩ rfl (by decide) (by decide) (by decide)

/-! ## Theorems on the Fetcher -/

theorem redirectChain_cons (h0 : RedirectHop) (t : List RedirectHop) (fin : TransportEvent) :
    redirectChain (h0 :: t) fin =
      .response h0.status h0.location h0.body h0.bodyErr :: redirectChain t fin := rfl

/-- C4: on a transport script of N redirect (301/302) responses followed by a
success response, `createFetch` issues exactly N+1 requests, the URL of each
request after the first being the previous response's `Location` resolved
against the previous request URL, selects the proxy agent afresh for each
request's URL, and returns the final success response. -/
theorem createFetch_follows_redirects (env : Env) (u : URLModel)
    (hops : List RedirectHop) (s : Nat) (loc : Option Location) (body : List Nat)
    (bErr : Bool) (reqs : List Request) (res : FetchResult)
    (hhops : ∀ h ∈ hops, h.status = 301 ∨ h.status = 302)
    (hs : isOk s = true)
    (h : createFetch env u (redirectChain hops (.response s loc body bErr)) = (reqs, res)) :
    res = .success s body bErr ∧
    reqs.length = hops.length + 1 ∧
    reqs.map Request.url = urlTrail u hops ∧
    ∀ q ∈ reqs, q.agent = getAgent env q.url := by
  induction hops generalizing u reqs res with
  | nil =>
    have hlt : 200 ≤ s ∧ s < 300 := of_decide_eq_true hs
    have hns : ¬(s = 301 ∨ s = 302) := by omega
    simp only [redirectChain, List.map_nil, List.nil_append, createFetch] at h
    rw [if_neg hns, if_pos hs] at h
    rw [Prod.mk.injEq] at h
    obtain ⟨h1, h2⟩ := h
    subst h1; subst h2
    refine ⟨rfl, rfl, rfl, ?_⟩
    intro q hq
    simp only [List.mem_singleton] at hq
    subst hq
    rfl
  | cons h0 t ih =>
    have h301 : h0.status = 301 ∨ h0.status = 302 := hhops h0 (List.mem_cons_self h0 t)
    have hrest : ∀ x ∈ t, x.status = 301 ∨ x.status = 302 :=
      fun x hx => hhops x (List.mem_cons_of_mem h0 hx)
    rw [redirectChain_cons] at h
    simp only [createFetch] at h
    rw [if_pos h301] at h
    rw [Prod.mk.injEq] at h
    obtain ⟨h1, h2⟩ := h
    subst h1; subst h2
    obtain ⟨ihres, ihlen, ihmap, ihagent⟩ :=
      ih (resolveLocation h0.location u) _ _ hrest rfl
    refine ⟨ihres, ?_, ?_, ?_⟩
    · simp [ihlen]
    · simp only [List.map_cons, ihmap, urlTrail]
    · intro q hq
      rcases List.mem_cons.mp hq with hq | hq
      · subst hq; rfl
      · exact ihagent q hq

/-- Witness for C4: a concrete chain of two redirects (an absolute hop to a
different scheme, then a relative hop) followed by a 200: three requests are
issued, along the resolved URL trail, each with the agent selected for its own
URL, and the final response is returned. -/
theorem createFetch_follows_redirects_witness :
    createFetch ⟨none, none, none, none, none, none⟩ ⟨"https:", "//a/1"⟩
        (redirectChain
          [⟨301, some (.absolute ⟨"http:", "//b/2"⟩), [], false⟩,
           ⟨302, some (.relative "//b/3"), [], false⟩]
          (.response 200 none [7, 8] false)) =
      ([⟨⟨"https:", "//a/1"⟩, none⟩, ⟨⟨"http:", "//b/2"⟩, none⟩, ⟨⟨"http:", "//b/3"⟩, none⟩],
        .success 200 [7, 8] false) ∧
    FetchResult.success 200 [7, 8] false = .success 200 [7, 8] false ∧
    (3 : Nat) = 2 + 1 := by
  refine ⟨by decide, ?_, rfl⟩
  exact (createFetch_follows_redirects ⟨none, none, none, none, none, none⟩
    ⟨"https:", "//a/1"⟩
    [⟨301, some (.absolute ⟨"http:", "//b/2"⟩), [], false⟩,
     ⟨302, some (.relative "//b/3"), [], false⟩]
    200 none [7, 8] false
    [⟨⟨"https:", "//a/1"⟩, none⟩, ⟨⟨"http:", "//b/2"⟩, none⟩, ⟨⟨"http:", "//b/3"⟩, none⟩]
    (.success 200 [7, 8] false)
    (by decide) (by decide) (by decide)).1

/-- C7: a response whose status is neither 301/302 nor in the 2xx success
range makes `createFetch` fail with an error carrying that status code, and
`download` leaves the filesystem exactly as it was — the write stream for the
compressed file is only created after the fetch succeeds. -/
theorem badStatus_fails_without_writing (env : Env)
    (gunzip : List Nat → Option (List Nat)) (url : URLModel) (st : Nat)
    (loc : Option Location) (body : List Nat) (bErr : Bool)
    (rest : List TransportEvent) (fs : FS)
    (h301 : ¬(st = 301 ∨ st = 302)) (hok : isOk st = false) :
    createFetch env url (.response st loc body bErr :: rest) =
      ([⟨url, getAgent env url⟩], .statusError st) ∧
    download env gunzip url (.response st loc body bErr :: rest) fs =
      (fs, some (.statusError st), [⟨url, getAgent env url⟩]) := by
  have hfetch : createFetch env url (.response st loc body bErr :: rest) =
      ([⟨url, getAgent env url⟩], .statusError st) := by
    simp only [createFetch]
    rw [if_neg h301, if_neg (by simp [hok])]
  refine ⟨hfetch, ?_⟩
  simp only [download, hfetch]

/-- Witness for C7: a single 404 response. `createFetch` returns the
status-carrying error and `download` run on an empty filesystem returns it
unchanged: no dist directory, no compressed file, no binary file. -/
theorem badStatus_fails_without_writing_witness :
    createFetch ⟨none, none, none, none, none, none⟩ ⟨"https:", "//a/1"⟩
        [.response 404 none [9] false] =
      ([⟨⟨"https:", "//a/1"⟩, none⟩], .statusError 404) ∧
    download ⟨none, none, none, none, none, none⟩ (fun l => some l) ⟨"https:", "//a/1"⟩
        [.response 404 none [9] false] ⟨false, none, none⟩ =
      (⟨false, none, none⟩, some (.statusError 404), [⟨⟨"https:", "//a/1"⟩, none⟩]) :=
  badStatus_fails_without_writing ⟨none, none, none, none, none, none⟩ (fun l => some l)
    ⟨"https:", "//a/1"⟩ 404 none [9] false [] ⟨false, none, none⟩
    (by decide) (by decide)

/-! ## Theorems on the acquisition pipeline and its error handling -/

/-- Environment with no proxy variables set. -/
def noProxyEnv : Env := ⟨none, none, none, none, none, none⟩

/-- A gunzip oracle that accepts any input (identity inflate). -/
def idGunzip : List Nat → Option (List Nat) := fun l => some l

/-- A concrete download URL. -/
def sampleURL : URLModel := ⟨"https:", "//github.com/x"⟩

/-- The filesystem before any run: no dist directory, no files. -/
def emptyFS : FS := ⟨false, none, none⟩

/-- A transport script delivering one success response with body `[1, 2, 3]`. -/
def okChain : List TransportEvent := [.response 200 none [1, 2, 3] false]

/-- C1: the claim says the final chmod marks the binary rwxr-xr-x-executable,
and that is what the surrounding spec intends, but the code calls
`fs.chmod(path, 755)` with the DECIMAL number 755 (= octal 1363): after a
fully successful download the binary file's mode is 755, which is not
rwxr-xr-x (0o755 = 493) and does not set the execute bit for all of owner,
group and others (the group execute bit is clear). -/
theorem download_chmod_decimal :
    (download noProxyEnv idGunzip sampleURL okChain emptyFS).1.binaryFile =
      some ⟨[1, 2, 3], 755⟩ ∧
    (download noProxyEnv idGunzip sampleURL okChain emptyFS).2.1 = none ∧
    modeExecutableAll 755 = false ∧
    (755 : Nat) ≠ rwxrxrxMode := by
  refine ⟨by decide, by decide, by decide, by decide⟩

/-- Counterexample to C2: a 404 response is a non-success HTTP status, yet the
outcome is the raw-error path (`console.error`), not the remediation help —
the thrown `Error('status: 404')` is not a node-fetch `FetchError`. -/
theorem statusError_takes_raw_path :
    (ensureBinaryFileExists noProxyEnv idGunzip sampleURL
        [.response 404 none [] false] false false emptyFS).2.1 =
      .exitedWithRawError (.statusError 404) ∧
    (ensureBinaryFileExists noProxyEnv idGunzip sampleURL
        [.response 404 none [] false] false false emptyFS).2.1 ≠
      .exitedWithHelp := by
  refine ⟨by decide, by decide⟩

/-- C2 (amended): the remediation hints are printed exactly when the caught
error is a node-fetch `FetchError` instance (connection or body-stream
failures); an error raised for a non-success HTTP status is a plain
status-carrying `Error`, so it takes the raw-error path; every failure path
exits with status 1. -/
theorem failure_reporting (env : Env) (gunzip : List Nat → Option (List Nat))
    (url : URLModel) (chain : List TransportEvent) (fs fs1 : FS) (e : AcqError)
    (reqs : List Request) (c : Nat)
    (hfs : fs.binaryFile = none)
    (h : download env gunzip url chain fs = (fs1, some e, reqs)) :
    (ensureBinaryFileExists env gunzip url chain false false fs).2.1 =
      (if isFetchErrorInstance e then .exitedWithHelp else .exitedWithRawError e) ∧
    isFetchErrorInstance (.statusError c) = false ∧
    exitCode (ensureBinaryFileExists env gunzip url chain false false fs).2.1 = some 1 := by
  have hsome : fs.binaryFile.isSome = false := by rw [hfs]; rfl
  refine ⟨?_, rfl, ?_⟩
  · simp only [ensureBinaryFileExists, hsome, Bool.false_eq_true, if_false, h]
  · simp only [ensureBinaryFileExists, hsome, Bool.false_eq_true, if_false, h]
    cases hfe : isFetchErrorInstance e <;> simp [exitCode]

/-- Witness for C2 (amended): a connection failure (`FetchError`) on an empty
cache prints the help and exits 1. -/
theorem failure_reporting_witness :
    (ensureBinaryFileExists noProxyEnv idGunzip sampleURL [.netError]
        false false emptyFS).2.1 =
      (if isFetchErrorInstance .fetchError then RunOutcome.exitedWithHelp
       else RunOutcome.exitedWithRawError .fetchError) ∧
    isFetchErrorInstance (.statusError 404) = false ∧
    exitCode (ensureBinaryFileExists noProxyEnv idGunzip sampleURL [.netError]
        false false emptyFS).2.1 = some 1 :=
  failure_reporting noProxyEnv idGunzip sampleURL [.netError] emptyFS emptyFS
    .fetchError [⟨sampleURL, none⟩] 404 rfl (by decide)

theorem download_success_shape (env : Env) (gunzip : List Nat → Option (List Nat))
    (url : URLModel) (chain : List TransportEvent) (fs fs1 : FS) (reqs : List Request)
    (h : download env gunzip url chain fs = (fs1, none, reqs)) :
    fs1.distExists = true ∧ fs1.binaryFile.isSome = true ∧
    fs1.compressedFile.isSome = true := by
  simp only [download] at h
  cases hfetch : (createFetch env url chain).2 with
  | fetchError => rw [hfetch] at h; simp at h
  | statusError c => rw [hfetch] at h; simp at h
  | truncated => rw [hfetch] at h; simp at h
  | success st body bodyErr =>
    rw [hfetch] at h
    cases bodyErr with
    | true => simp at h
    | false =>
      cases hg : gunzip body with
      | none =>
        simp [decompress, ensureDistExists, hg] at h
      | some out =>
        simp [decompress, ensureDistExists, hg] at h
        obtain ⟨h1, -⟩ := h
        subst h1
        exact ⟨rfl, rfl, rfl⟩

/-- Counterexample to C5: a fully successful acquisition (fetch, decompress
and chmod all complete, control proceeds to the dispatcher) leaves the
compressed file `{binaryFilename}.gz` still present in the dist directory:
the success path never deletes it. -/
theorem compressedFile_persists_after_success :
    (ensureBinaryFileExists noProxyEnv idGunzip sampleURL okChain
        false false emptyFS).2.1 = .proceeded ∧
    (ensureBinaryFileExists noProxyEnv idGunzip sampleURL okChain
        false false emptyFS).1.compressedFile = some ⟨[1, 2, 3], defaultFileMode⟩ := by
  refine ⟨by decide, by decide⟩

/-- C5 (amended): after a successful acquisition the dist directory contains
the binary file AND still contains the compressed file — `{binaryFilename}.gz`
is not transient on the success path; it is removed only by the failure
handler. -/
theorem success_keeps_compressed (env : Env) (gunzip : List Nat → Option (List Nat))
    (url : URLModel) (chain : List TransportEvent) (b g : Bool) (fs fs1 : FS)
    (reqs : List Request)
    (hfs : fs.binaryFile = none)
    (h : download env gunzip url chain fs = (fs1, none, reqs)) :
    ensureBinaryFileExists env gunzip url chain b g fs = (fs1, .proceeded, reqs) ∧
    fs1.distExists = true ∧
    fs1.binaryFile.isSome = true ∧
    fs1.compressedFile.isSome = true := by
  obtain ⟨hd, hb, hc⟩ := download_success_shape env gunzip url chain fs fs1 reqs h
  have hsome : fs.binaryFile.isSome = false := by rw [hfs]; rfl
  refine ⟨?_, hd, hb, hc⟩
  simp only [ensureBinaryFileExists, hsome, Bool.false_eq_true, if_false, h]

/-- Witness for C5 (amended): the concrete successful run keeps both files. -/
theorem success_keeps_compressed_witness :
    ensureBinaryFileExists noProxyEnv idGunzip sampleURL okChain false false emptyFS =
      (⟨true, some ⟨[1, 2, 3], 755⟩, some ⟨[1, 2, 3], defaultFileMode⟩⟩, .proceeded,
        [⟨sampleURL, none⟩]) ∧
    FS.distExists ⟨true, some ⟨[1, 2, 3], 755⟩, some ⟨[1, 2, 3], defaultFileMode⟩⟩ = true :=
  ⟨(success_keeps_compressed noProxyEnv idGunzip sampleURL okChain false false emptyFS
      ⟨true, some ⟨[1, 2, 3], 755⟩, some ⟨[1, 2, 3], defaultFileMode⟩⟩
      [⟨sampleURL, none⟩] rfl (by decide)).1, rfl⟩

/-- C6: on any failure during acquisition, the binary and compressed files are
both gone afterwards (the two best-effort unlinks), and the process exits with
status 1 — and the exit status is 1 regardless of whether either deletion
itself fails (deletion errors are swallowed). -/
theorem failure_cleans_artifacts (env : Env) (gunzip : List Nat → Option (List Nat))
    (url : URLModel) (chain : List TransportEvent) (fs fs1 : FS) (e : AcqError)
    (reqs : List Request)
    (hfs : fs.binaryFile = none)
    (h : download env gunzip url chain fs = (fs1, some e, reqs)) :
    (ensureBinaryFileExists env gunzip url chain false false fs).1.binaryFile = none ∧
    (ensureBinaryFileExists env gunzip url chain false false fs).1.compressedFile = none ∧
    (∀ b g, exitCode (ensureBinaryFileExists env gunzip url chain b g fs).2.1 = some 1) := by
  have hsome : fs.binaryFile.isSome = false := by rw [hfs]; rfl
  refine ⟨?_, ?_, ?_⟩
  · simp only [ensureBinaryFileExists, hsome, Bool.false_eq_true, if_false, h]
    rfl
  · simp only [ensureBinaryFileExists, hsome, Bool.false_eq_true, if_false, h]
    rfl
  · intro b g
    simp only [ensureBinaryFileExists, hsome, Bool.false_eq_true, if_false, h]
    cases hfe : isFetchErrorInstance e <;> simp [exitCode]

/-- Witness for C6: an interrupted fetch (connection error) on an empty cache:
both artifact paths are absent afterwards and the exit status is 1, also when
both unlink calls are made to fail. -/
theorem failure_cleans_artifacts_witness :
    (ensureBinaryFileExists noProxyEnv idGunzip sampleURL [.netError]
        false false emptyFS).1.binaryFile = none ∧
    (ensureBinaryFileExists noProxyEnv idGunzip sampleURL [.netError]
        false false emptyFS).1.compressedFile = none ∧
    exitCode (ensureBinaryFileExists noProxyEnv idGunzip sampleURL [.netError]
        true true emptyFS).2.1 = some 1 := by
  obtain ⟨h1, h2, h3⟩ := failure_cleans_artifacts noProxyEnv idGunzip sampleURL
    [.netError] emptyFS emptyFS .fetchError [⟨sampleURL, none⟩] rfl (by decide)
  exact ⟨h1, h2, h3 true true⟩

/-- C9: when the local binary file already exists, `ensureBinaryFileExists`
returns immediately: the filesystem is returned unchanged, no exit is taken,
and zero requests are issued. -/
theorem fastPath_no_requests (env : Env) (gunzip : List Nat → Option (List Nat))
    (url : URLModel) (chain : List TransportEvent) (b g : Bool) (fs : FS) (f : File)
    (h : fs.binaryFile = some f) :
    ensureBinaryFileExists env gunzip url chain b g fs = (fs, .proceeded, []) := by
  unfold ensureBinaryFileExists
  rw [h]
  rfl

/-- Witness for C9: with the binary present, a run against a transport script
that would fail performs no request and leaves the filesystem untouched. -/
theorem fastPath_no_requests_witness :
    ensureBinaryFileExists noProxyEnv idGunzip sampleURL [.netError] false false
      ⟨true, some ⟨[4], 493⟩, none⟩ = (⟨true, some ⟨[4], 493⟩, none⟩, .proceeded, []) :=
  fastPath_no_requests noProxyEnv idGunzip sampleURL [.netError] false false
    ⟨true, some ⟨[4], 493⟩, none⟩ ⟨[4], 493⟩ rfl
